import Mathlib

/-!
Shallow embedding of the `jw` math library (`jw_math.hpp`): the vector types
`vec2`, `vec3`, `vec4`, the quaternion type `quat`, and the column-major 4x4
matrix type `mat4`, together with the operations the specification covers.

Scalars (the C++ `f32` components) are modelled as exact field elements: the
componentwise and matrix algebra is defined over an arbitrary commutative
ring, so the definitions are computable and can be evaluated over `Rat`;
the constructors that call `sinf` / `cosf` / `tanf` are defined over the
real numbers. Mutating C++ member functions are embedded as functions from
the receiver state to the new state; for the mutating/non-mutating pairs a
`...Call` variant returns the pair (returned value, receiver state after
the call), which makes the frame effect of each call explicit.
-/

namespace jw

/-- Embeds `jw::vec2`: two scalar components `x`, `y`. -/
structure vec2 (α : Type) where
  x : α
  y : α
deriving DecidableEq

/-- Embeds `jw::vec3`: three scalar components `x`, `y`, `z`. -/
structure vec3 (α : Type) where
  x : α
  y : α
  z : α
deriving DecidableEq

/-- Embeds `jw::vec4`: four scalar components `x`, `y`, `z`, `w`. -/
structure vec4 (α : Type) where
  x : α
  y : α
  z : α
  w : α
deriving DecidableEq

/-- Embeds `jw::quat`: four scalar components `x`, `y`, `z`, `w`. -/
structure quat (α : Type) where
  x : α
  y : α
  z : α
  w : α
deriving DecidableEq

/-- Embeds `jw::mat4`: sixteen scalar fields in declaration order
`m00 .. m03, m10 .. m13, m20 .. m23, m30 .. m33`, named `m{col}{row}`
(column-major storage). -/
structure mat4 (α : Type) where
  m00 : α
  m01 : α
  m02 : α
  m03 : α
  m10 : α
  m11 : α
  m12 : α
  m13 : α
  m20 : α
  m21 : α
  m22 : α
  m23 : α
  m30 : α
  m31 : α
  m32 : α
  m33 : α
deriving DecidableEq

variable {α : Type} [CommRing α]

/-- Embeds `vec3::vec3(vec2 v, f32 z)` (line 166), the explicit-`z` form. -/
def vec3.ofVec2 (v : vec2 α) (z : α) : vec3 α :=
  ⟨v.x, v.y, z⟩

/-- Embeds `vec3::vec3(vec2 v, f32 z = 0.0F)` called with the default
argument `z = 0`. -/
def vec3.ofVec2d (v : vec2 α) : vec3 α :=
  vec3.ofVec2 v 0

/-- Embeds `vec4::vec4(vec3 v, f32 w)` (line 287), the explicit-`w` form. -/
def vec4.ofVec3 (v : vec3 α) (w : α) : vec4 α :=
  ⟨v.x, v.y, v.z, w⟩

/-- Embeds `vec4::vec4(vec3 v, f32 w = 0.0F)` called with the default
argument `w = 0`. -/
def vec4.ofVec3d (v : vec3 α) : vec4 α :=
  vec4.ofVec3 v 0

/-- Embeds `vec3::operator-(const vec3 &b)` (lines 234-237). The source
returns `vec3(x - b.x, y - b.y, y - b.y)`: the third component repeats
`y - b.y` instead of computing `z - b.z`. -/
def vec3.sub (a b : vec3 α) : vec3 α :=
  ⟨a.x - b.x, a.y - b.y, a.y - b.y⟩

/-- Embeds `vec4::operator-(const vec4 &b)` (lines 351-354). The source
returns `vec4(x - b.x, y - b.y, y - b.y, w - b.w)`: the third component
repeats `y - b.y` instead of computing `z - b.z`. -/
def vec4.sub (a b : vec4 α) : vec4 α :=
  ⟨a.x - b.x, a.y - b.y, a.y - b.y, a.w - b.w⟩

/-- Embeds `vec3::cross(const vec3 &b)` (lines 204-207). -/
def vec3.cross (a b : vec3 α) : vec3 α :=
  ⟨a.y * b.z - a.z * b.y, a.z * b.x - a.x * b.z, a.x * b.y - a.y * b.x⟩

/-- Embeds `mat4::mat4(f32 s)` (line 416): diagonal entries `s`, all other
entries `0`. -/
def mat4.diag (s : α) : mat4 α :=
  ⟨s, 0, 0, 0,
   0, s, 0, 0,
   0, 0, s, 0,
   0, 0, 0, s⟩

/-- Embeds `mat4::mat4()` with the default argument, i.e. `mat4(1.0F)`. -/
def mat4.id : mat4 α :=
  mat4.diag 1

/-- Embeds `mat4::mat4(const quat &q)` (lines 417-438): the rotation matrix
derived from the quaternion components, with the translation row/column
zeroed and `m33 = 1`. -/
def mat4.ofQuat (q : quat α) : mat4 α :=
  ⟨1 - 2 * (q.y * q.y + q.z * q.z),
   2 * (q.x * q.y + q.z * q.w),
   2 * (q.x * q.z - q.y * q.w),
   0,
   2 * (q.x * q.y - q.z * q.w),
   1 - 2 * (q.x * q.x + q.z * q.z),
   2 * (q.y * q.z + q.x * q.w),
   0,
   2 * (q.x * q.z + q.y * q.w),
   2 * (q.y * q.z - q.x * q.w),
   1 - 2 * (q.x * q.x + q.y * q.y),
   0,
   0, 0, 0, 1⟩

/-- Embeds `mat4::operator*(const mat4 &b)` (lines 516-541): result entry
in column `c`, row `r` is the sum over `k` of `m{k}{r} * b.m{c}{k}`. -/
def mat4.mul (a b : mat4 α) : mat4 α :=
  ⟨a.m00 * b.m00 + a.m10 * b.m01 + a.m20 * b.m02 + a.m30 * b.m03,
   a.m01 * b.m00 + a.m11 * b.m01 + a.m21 * b.m02 + a.m31 * b.m03,
   a.m02 * b.m00 + a.m12 * b.m01 + a.m22 * b.m02 + a.m32 * b.m03,
   a.m03 * b.m00 + a.m13 * b.m01 + a.m23 * b.m02 + a.m33 * b.m03,
   a.m00 * b.m10 + a.m10 * b.m11 + a.m20 * b.m12 + a.m30 * b.m13,
   a.m01 * b.m10 + a.m11 * b.m11 + a.m21 * b.m12 + a.m31 * b.m13,
   a.m02 * b.m10 + a.m12 * b.m11 + a.m22 * b.m12 + a.m32 * b.m13,
   a.m03 * b.m10 + a.m13 * b.m11 + a.m23 * b.m12 + a.m33 * b.m13,
   a.m00 * b.m20 + a.m10 * b.m21 + a.m20 * b.m22 + a.m30 * b.m23,
   a.m01 * b.m20 + a.m11 * b.m21 + a.m21 * b.m22 + a.m31 * b.m23,
   a.m02 * b.m20 + a.m12 * b.m21 + a.m22 * b.m22 + a.m32 * b.m23,
   a.m03 * b.m20 + a.m13 * b.m21 + a.m23 * b.m22 + a.m33 * b.m23,
   a.m00 * b.m30 + a.m10 * b.m31 + a.m20 * b.m32 + a.m30 * b.m33,
   a.m01 * b.m30 + a.m11 * b.m31 + a.m21 * b.m32 + a.m31 * b.m33,
   a.m02 * b.m30 + a.m12 * b.m31 + a.m22 * b.m32 + a.m32 * b.m33,
   a.m03 * b.m30 + a.m13 * b.m31 + a.m23 * b.m32 + a.m33 * b.m33⟩

/-- Embeds `mat4::operator*(const vec4 &b)` (lines 543-550). The source
computes the second component as `m01 * b.x + m11 * b.y + m21 * b.y +
m31 * b.w`: the third summand multiplies `m21` by `b.y` instead of `b.z`. -/
def mat4.mulVec (m : mat4 α) (b : vec4 α) : vec4 α :=
  ⟨m.m00 * b.x + m.m10 * b.y + m.m20 * b.z + m.m30 * b.w,
   m.m01 * b.x + m.m11 * b.y + m.m21 * b.y + m.m31 * b.w,
   m.m02 * b.x + m.m12 * b.y + m.m22 * b.z + m.m32 * b.w,
   m.m03 * b.x + m.m13 * b.y + m.m23 * b.z + m.m33 * b.w⟩

/-- Embeds `mat4::translate(const vec3 &xyz)` (lines 463-470): builds a
default matrix `t` with `t.m30 = x`, `t.m31 = y`, `t.m32 = z` and replaces
the receiver with `*this * t`; the function returns the new receiver
state. -/
def mat4.translate (m : mat4 α) (xyz : vec3 α) : mat4 α :=
  mat4.mul m
    ⟨1, 0, 0, 0,
     0, 1, 0, 0,
     0, 0, 1, 0,
     xyz.x, xyz.y, xyz.z, 1⟩

/-- Embeds `mat4::translated(const vec3 &xyz)` (lines 472-476): copies the
receiver and applies `translate` to the copy. -/
def mat4.translated (m : mat4 α) (xyz : vec3 α) : mat4 α :=
  mat4.translate m xyz

/-- Embeds `mat4::scale(const vec3 &s)` (lines 478-485): builds a default
matrix `t` with `t.m00 = s.x`, `t.m11 = s.y`, `t.m22 = s.z` and replaces
the receiver with `*this * t`. -/
def mat4.scale (m : mat4 α) (s : vec3 α) : mat4 α :=
  mat4.mul m
    ⟨s.x, 0, 0, 0,
     0, s.y, 0, 0,
     0, 0, s.z, 0,
     0, 0, 0, 1⟩

/-- Embeds `mat4::scaled(const vec3 &s)` (lines 487-491): copies the
receiver and applies `scale` to the copy. -/
def mat4.scaled (m : mat4 α) (s : vec3 α) : mat4 α :=
  mat4.scale m s

/-- Embeds `mat4::rotate(const quat &q)` (lines 505-508): replaces the
receiver with `*this * mat4(q)`. -/
def mat4.rotateQuat (m : mat4 α) (q : quat α) : mat4 α :=
  mat4.mul m (mat4.ofQuat q)

/-- Embeds `mat4::rotated(const quat &q)` (lines 510-514): copies the
receiver and applies `rotate` to the copy. -/
def mat4.rotatedQuat (m : mat4 α) (q : quat α) : mat4 α :=
  mat4.rotateQuat m q

/-- Embeds a call to the mutating `mat4::translate`: returns the pair
(returned value, receiver state after the call). The C++ function returns
a reference to the mutated receiver, so both components are the new
state. -/
def mat4.translateCall (m : mat4 α) (xyz : vec3 α) : mat4 α × mat4 α :=
  (mat4.translate m xyz, mat4.translate m xyz)

/-- Embeds a call to the non-mutating `mat4::translated`: returns the pair
(returned value, receiver state after the call). The C++ function operates
on a local copy, so the receiver state is unchanged. -/
def mat4.translatedCall (m : mat4 α) (xyz : vec3 α) : mat4 α × mat4 α :=
  (mat4.translated m xyz, m)

/-- Embeds a call to the mutating `mat4::scale`: (returned value, receiver
state after the call). -/
def mat4.scaleCall (m : mat4 α) (s : vec3 α) : mat4 α × mat4 α :=
  (mat4.scale m s, mat4.scale m s)

/-- Embeds a call to the non-mutating `mat4::scaled`: (returned value,
receiver state after the call). -/
def mat4.scaledCall (m : mat4 α) (s : vec3 α) : mat4 α × mat4 α :=
  (mat4.scaled m s, m)

/-- Embeds a call to the mutating `mat4::rotate(const quat&)`: (returned
value, receiver state after the call). -/
def mat4.rotateQuatCall (m : mat4 α) (q : quat α) : mat4 α × mat4 α :=
  (mat4.rotateQuat m q, mat4.rotateQuat m q)

/-- Embeds a call to the non-mutating `mat4::rotated(const quat&)`:
(returned value, receiver state after the call). -/
def mat4.rotatedQuatCall (m : mat4 α) (q : quat α) : mat4 α × mat4 α :=
  (mat4.rotatedQuat m q, m)

/-- Embeds `quat::quat(vec3 axis, f32 angle)` (line 407): components are
`axis * sin(angle / 2)` and `w = cos(angle / 2)`, over the reals. -/
noncomputable def quat.ofAxisAngle (axis : vec3 ℝ) (angle : ℝ) : quat ℝ :=
  ⟨axis.x * Real.sin (angle / 2),
   axis.y * Real.sin (angle / 2),
   axis.z * Real.sin (angle / 2),
   Real.cos (angle / 2)⟩

/-- Embeds `mat4::rotate(const vec3 &axis, f32 angle)` (lines 493-497):
builds `mat4(quat(axis, angle))` and replaces the receiver with
`*this * t`. -/
noncomputable def mat4.rotateAxisAngle (m : mat4 ℝ) (axis : vec3 ℝ) (angle : ℝ) : mat4 ℝ :=
  mat4.mul m (mat4.ofQuat (quat.ofAxisAngle axis angle))

/-- Embeds `mat4::rotated(const vec3 &axis, f32 angle)` (lines 499-503):
copies the receiver and applies `rotate` to the copy. -/
noncomputable def mat4.rotatedAxisAngle (m : mat4 ℝ) (axis : vec3 ℝ) (angle : ℝ) : mat4 ℝ :=
  mat4.rotateAxisAngle m axis angle

/-- Embeds a call to the mutating `mat4::rotate(axis, angle)`: (returned
value, receiver state after the call). -/
noncomputable def mat4.rotateAxisAngleCall (m : mat4 ℝ) (axis : vec3 ℝ) (angle : ℝ) :
    mat4 ℝ × mat4 ℝ :=
  (mat4.rotateAxisAngle m axis angle, mat4.rotateAxisAngle m axis angle)

/-- Embeds a call to the non-mutating `mat4::rotated(axis, angle)`:
(returned value, receiver state after the call). -/
noncomputable def mat4.rotatedAxisAngleCall (m : mat4 ℝ) (axis : vec3 ℝ) (angle : ℝ) :
    mat4 ℝ × mat4 ℝ :=
  (mat4.rotatedAxisAngle m axis angle, m)

/-- Embeds `mat4::perspective(f32 fovy, f32 ar, f32 n, f32 f)` (lines
557-573), over the reals: `ht = tan(fovy / 2)`, `t = n * ht`, `r = t * ar`;
the result starts from the default matrix and overwrites `m00`, `m11`,
`m22`, `m23`, `m32`, `m33`. -/
noncomputable def mat4.perspective (fovy ar n f : ℝ) : mat4 ℝ :=
  ⟨n / (n * Real.tan (fovy / 2) * ar), 0, 0, 0,
   0, n / (n * Real.tan (fovy / 2)), 0, 0,
   0, 0, -(f + n) / (f - n), -1,
   0, 0, -(2 * n * f) / (f - n), 0⟩

/-- C1: the claimed componentwise vector subtraction fails on the code. At
`a = (0, 0, 1)`, `b = (0, 0, 0)` the source `operator-` yields `(0, 0, 0)`
for `vec3` (third component `a.y - b.y = 0`, not `a.z - b.z = 1`) and
likewise `(0, 0, 1, 0) - (0, 0, 0, 0) = (0, 0, 0, 0)` for `vec4`. -/
theorem vec_sub_not_componentwise_eval :
    vec3.sub (⟨0, 0, 1⟩ : vec3 ℚ) ⟨0, 0, 0⟩ = ⟨0, 0, 0⟩ ∧
    vec4.sub (⟨0, 0, 1, 0⟩ : vec4 ℚ) ⟨0, 0, 0, 0⟩ = ⟨0, 0, 0, 0⟩ := by
  norm_num [vec3.sub, vec4.sub, vec3.mk.injEq, vec4.mk.injEq]

/-- C2: the claimed matrix-times-vector convention fails on the code. For
the matrix whose only nonzero entry is `m21 = 1` and the vector
`b = (0, 0, 1, 0)`, the claim requires the second component
`m01*b.x + m11*b.y + m21*b.z + m31*b.w = 1`, but the source computes
`m21 * b.y` in that slot, so the product is the zero vector. -/
theorem mulVec_convention_eval :
    mat4.mulVec
      (⟨0, 0, 0, 0,
        0, 0, 0, 0,
        0, 1, 0, 0,
        0, 0, 0, 0⟩ : mat4 ℚ) ⟨0, 0, 1, 0⟩ = ⟨0, 0, 0, 0⟩ := by
  norm_num [mat4.mulVec, vec4.mk.injEq]

/-- C3: the default-constructed matrix is a two-sided multiplicative
identity for `mat4` multiplication, componentwise and exactly. -/
theorem mat4_id_mul_id (M : mat4 ℚ) :
    mat4.mul M mat4.id = M ∧ mat4.mul mat4.id M = M := by
  obtain ⟨⟩ := M
  constructor <;> simp [mat4.mul, mat4.id, mat4.diag]

/-- C4: for every quaternion `q`, the matrix built from `q` has `m33 = 1`
and all six translation row/column entries exactly `0`. -/
theorem mat4_ofQuat_affine (q : quat ℝ) :
    (mat4.ofQuat q).m33 = 1 ∧ (mat4.ofQuat q).m30 = 0 ∧ (mat4.ofQuat q).m31 = 0 ∧
    (mat4.ofQuat q).m32 = 0 ∧ (mat4.ofQuat q).m03 = 0 ∧ (mat4.ofQuat q).m13 = 0 ∧
    (mat4.ofQuat q).m23 = 0 :=
  ⟨rfl, rfl, rfl, rfl, rfl, rfl, rfl⟩

/-- C5: translating the identity matrix by `(1, 2, 3)` and transforming the
homogeneous vector `(0, 0, 0, 1)` yields `(1, 2, 3, 1)`. -/
theorem translate_then_mulVec_eval :
    mat4.mulVec (mat4.translate mat4.id ⟨1, 2, 3⟩) (⟨0, 0, 0, 1⟩ : vec4 ℚ) =
      ⟨1, 2, 3, 1⟩ := by
  norm_num [mat4.translate, mat4.mul, mat4.id, mat4.diag, mat4.mulVec, vec4.mk.injEq]

/-- C6: the rotation matrix built from axis `(0, 0, 1)` and angle `π / 2`
via the axis-angle quaternion constructor, applied to `(1, 0, 0, 1)`,
yields exactly `(0, 1, 0, 1)` over the reals. -/
theorem rotation_z_quarter_turn_eval :
    mat4.mulVec (mat4.ofQuat (quat.ofAxisAngle ⟨0, 0, 1⟩ (Real.pi / 2)))
      (⟨1, 0, 0, 1⟩ : vec4 ℝ) = ⟨0, 1, 0, 1⟩ := by
  have hhalf : Real.pi / 2 / 2 = Real.pi / 4 := by ring
  have hs : Real.sin (Real.pi / 2 / 2) = Real.sqrt 2 / 2 := by
    rw [hhalf, Real.sin_pi_div_four]
  have hc : Real.cos (Real.pi / 2 / 2) = Real.sqrt 2 / 2 := by
    rw [hhalf, Real.cos_pi_div_four]
  have h2 : Real.sqrt 2 * Real.sqrt 2 = 2 := Real.mul_self_sqrt (by norm_num)
  simp only [quat.ofAxisAngle, mat4.ofQuat, mat4.mulVec, hs, hc, vec4.mk.injEq]
  refine ⟨?_, ?_, ?_, ?_⟩
  · linear_combination (-(1 : ℝ) / 2) * h2
  · linear_combination ((1 : ℝ) / 2) * h2
  · linear_combination (0 : ℝ) * h2
  · linear_combination (0 : ℝ) * h2

/-- C7: for positive `fovy`, `n`, `f` (and any aspect ratio), the
perspective matrix has `m33 = 0` and `m23 = -1`. -/
theorem perspective_m33_m23 (fovy ar n f : ℝ)
    (_hfovy : 0 < fovy) (_hn : 0 < n) (_hf : 0 < f) :
    (mat4.perspective fovy ar n f).m33 = 0 ∧
    (mat4.perspective fovy ar n f).m23 = -1 :=
  ⟨rfl, rfl⟩

/-- Witness for C7: the perspective matrix at `fovy = 1`, `ar = 1`,
`n = 1`, `f = 2` has `m33 = 0` and `m23 = -1`. -/
theorem perspective_m33_m23_witness :
    (mat4.perspective 1 1 1 2).m33 = 0 ∧ (mat4.perspective 1 1 1 2).m23 = -1 :=
  perspective_m33_m23 1 1 1 2 one_pos one_pos two_pos

/-- C8: each non-mutating form leaves the receiver state unchanged and
returns the value the corresponding mutating form produces on a copy of
the receiver: this holds for `translated`, `scaled`, `rotated(axis,
angle)`, and `rotated(quat)`. -/
theorem nonmutating_forms_frame (M : mat4 ℝ) (v s axis : vec3 ℝ) (angle : ℝ)
    (q : quat ℝ) :
    (mat4.translatedCall M v).2 = M ∧
    (mat4.translatedCall M v).1 = (mat4.translateCall M v).1 ∧
    (mat4.scaledCall M s).2 = M ∧
    (mat4.scaledCall M s).1 = (mat4.scaleCall M s).1 ∧
    (mat4.rotatedAxisAngleCall M axis angle).2 = M ∧
    (mat4.rotatedAxisAngleCall M axis angle).1 = (mat4.rotateAxisAngleCall M axis angle).1 ∧
    (mat4.rotatedQuatCall M q).2 = M ∧
    (mat4.rotatedQuatCall M q).1 = (mat4.rotateQuatCall M q).1 :=
  ⟨rfl, rfl, rfl, rfl, rfl, rfl, rfl, rfl⟩

/-- C9: the lift constructors keep the source components and append the
documented default `0`: `vec3(v)` is `(v.x, v.y, 0)` and `vec4(u)` is
`(u.x, u.y, u.z, 0)`. -/
theorem lift_defaults (v : vec2 ℚ) (u : vec3 ℚ) :
    vec3.ofVec2d v = ⟨v.x, v.y, 0⟩ ∧ vec4.ofVec3d u = ⟨u.x, u.y, u.z, 0⟩ :=
  ⟨rfl, rfl⟩

/-- C10: `vec3::cross` computes the standard right-handed cross product,
and consequently is anticommutative componentwise. -/
theorem cross_formula_antisymm (a b : vec3 ℚ) :
    vec3.cross a b =
      ⟨a.y * b.z - a.z * b.y, a.z * b.x - a.x * b.z, a.x * b.y - a.y * b.x⟩ ∧
    (vec3.cross a b).x = -((vec3.cross b a).x) ∧
    (vec3.cross a b).y = -((vec3.cross b a).y) ∧
    (vec3.cross a b).z = -((vec3.cross b a).z) := by
  refine ⟨rfl, ?_, ?_, ?_⟩ <;> simp [vec3.cross] <;> ring

end jw
